import Mathlib

/-!
Verification of the message-relay edge function and the client chat
controller of the data-discoverer application.

The relay (supabase/functions/chat-with-ai/index.ts) is modelled as a pure
function from an environment (outcomes of the external calls: identity
check, provider HTTP call, database inserts) and a request body to the
HTTP response together with the rows written during the invocation.
The client side (ChatInterface.handleSubmit in AuthPage.tsx) and the
sidebar date formatter (ResearchSidebar.tsx) are modelled likewise.
-/

namespace DataDiscoverer

/-- A role-tagged message as sent by the client (interface ChatMessage). -/
structure ChatMessage where
  role : String
  content : String
  deriving Repr, DecidableEq

/-- The relay request body (interface RequestBody): messages plus optional
chatId and title. -/
structure RequestBody where
  messages : List ChatMessage
  chatId : Option String
  title : Option String
  deriving Repr, DecidableEq

/-- The message object inside a provider completion choice; its content
field may be absent or null. -/
structure ChoiceMessage where
  content : Option String
  deriving Repr, DecidableEq

/-- One completion choice of the provider payload; the message field may be
absent. -/
structure Choice where
  message : Option ChoiceMessage
  deriving Repr, DecidableEq

/-- The JSON payload of a successful provider HTTP response; the choices
array may be absent. -/
structure ProviderPayload where
  choices : Option (List Choice)
  deriving Repr, DecidableEq

/-- Outcome of the provider fetch: aborted by the 25 s timer, a non-ok HTTP
status, or an ok response with a JSON payload. -/
inductive ProviderResult where
  | aborted
  | httpError (status : Nat)
  | ok (payload : ProviderPayload)
  deriving Repr, DecidableEq

/-- Environment of one relay invocation: the resolved identity, the AIML
API key from the process environment, the provider call outcome, and
whether each database insert succeeds (with the id the chats insert
returns). -/
structure Env where
  user : Option String
  aimlApiKey : Option String
  provider : ProviderResult
  chatInsertOk : Bool
  newChatId : String
  userMsgInsertOk : Bool
  aiMsgInsertOk : Bool
  deriving Repr, DecidableEq

/-- Rows written during one invocation: chats as (id, user_id, title),
messages as (chat_id, role, content). -/
structure Store where
  chats : List (String × String × String)
  msgs : List (String × String × String)
  deriving Repr, DecidableEq

/-- The store at the start of an invocation: nothing written yet. -/
def Store.empty : Store := ⟨[], []⟩

/-- Body of the relay HTTP response: the plain-text Unauthorized body, the
JSON error object, or the JSON success object. -/
inductive ResponseBody where
  | plain (s : String)
  | errorJson (error details : String)
  | successJson (response chatId : String)
  deriving Repr, DecidableEq

/-- A relay HTTP response: status code and body. -/
structure RelayResponse where
  status : Nat
  body : ResponseBody
  deriving Repr, DecidableEq

/-- A thrown JavaScript error: its name and message properties. -/
structure JsError where
  name : String
  message : String
  deriving Repr, DecidableEq

/-- JavaScript truthiness of an optional string: undefined and the empty
string are falsy. -/
def jsFalsy : Option String → Bool
  | none => true
  | some s => s == ""

/-- Whether pat occurs at the start of s, over character lists. -/
def listStartsWith : List Char → List Char → Bool
  | _, [] => true
  | [], _ :: _ => false
  | c :: cs, p :: ps => c == p && listStartsWith cs ps

/-- Whether pat occurs as a contiguous sublist of s. -/
def containsSub : List Char → List Char → Bool
  | [], pat => pat.isEmpty
  | c :: cs, pat => listStartsWith (c :: cs) pat || containsSub cs pat

/-- JavaScript String.includes: whether pat occurs as a substring. -/
def strIncludes (s pat : String) : Bool := containsSub s.toList pat.toList

/-- The whitespace characters stripped by String.trim. -/
def jsWhitespace (c : Char) : Bool := c == ' ' || c == '\t' || c == '\n' || c == '\r'

/-- The check aiResponse.trim().length === 0 of line 133: true exactly when
every character is whitespace. -/
def jsTrimEmpty (s : String) : Bool := s.toList.all jsWhitespace

/-- JavaScript String.slice(0, n) over the character list. -/
def sliceTo (s : String) (n : Nat) : String := String.mk (s.toList.take n)

/-- The message property of the DOMException raised when a fetch is
aborted. -/
def abortMessage : String := "The operation was aborted"

/-- Line 141: chatTitle = title or first-message content sliced to 50
characters plus an ellipsis, or the fallback string. The ellipsis is
always appended in the middle alternative; with no first message the
undefined content coerces to the literal text undefined. -/
def chatTitle (title : Option String) (messages : List ChatMessage) : String :=
  if jsFalsy title = false then title.getD "" else
    let mid : String :=
      match messages.head? with
      | some m => sliceTo m.content 50 ++ "..."
      | none => "undefined..."
    if mid = "" then "New Research Chat" else mid

/-- Lines 127-131: the checks on data.choices, data.choices[0] and
data.choices[0].message; none means the Invalid-AI-response-format throw,
otherwise the content field of the first choice message. -/
def providerContent (p : ProviderPayload) : Option (Option String) :=
  match p.choices with
  | none => none
  | some [] => none
  | some (c :: _) =>
    match c.message with
    | none => none
    | some m => some m.content

/-- Lines 196-208: map a caught error to (status, error message). -/
def mapError (e : JsError) : Nat × String :=
  if e.name == "AbortError" then (408, "Request timeout")
  else if strIncludes e.message "AI/ML API error" then (502, "AI service unavailable")
  else if strIncludes e.message "Invalid AI response" || strIncludes e.message "Empty AI response" then
    (502, "Invalid AI response")
  else (500, "Internal server error")

/-- Lines 159-191: insert the user message then the assistant message under
the resolved chat id, then return the success response. Reading the content
of the last element of an empty messages array raises a TypeError. A failed
insert writes no row; rows written before a failure stay written. -/
def persistTurn (env : Env) (aiResponse cid : String) (msgs : List ChatMessage)
    (st : Store) : Except (JsError × Store) (RelayResponse × Store) :=
  match msgs.getLast? with
  | none => .error (⟨"TypeError", "Cannot read properties of undefined"⟩, st)
  | some last =>
    if env.userMsgInsertOk then
      let st1 : Store := ⟨st.chats, st.msgs ++ [(cid, "user", last.content)]⟩
      if env.aiMsgInsertOk then
        let st2 : Store := ⟨st1.chats, st1.msgs ++ [(cid, "assistant", aiResponse)]⟩
        .ok (⟨200, .successJson aiResponse cid⟩, st2)
      else .error (⟨"Error", "Failed to save AI response"⟩, st1)
    else .error (⟨"Error", "Failed to save user message"⟩, st)

/-- Lines 137-157: if the supplied chat id is falsy, insert a new chats row
with the computed title and use its id; otherwise use the supplied id. Then
persist the turn. -/
def resolveChatAndPersist (env : Env) (uid : String) (req : RequestBody)
    (aiResponse : String) : Except (JsError × Store) (RelayResponse × Store) :=
  if jsFalsy req.chatId then
    if env.chatInsertOk then
      let st : Store := ⟨[(env.newChatId, uid, chatTitle req.title req.messages)], []⟩
      persistTurn env aiResponse env.newChatId req.messages st
    else .error (⟨"Error", "Failed to create chat"⟩, Store.empty)
  else
    persistTurn env aiResponse (req.chatId.getD "") req.messages Store.empty

/-- Lines 55-191, after the identity check: key check, provider call,
response validation, chat resolution and persistence. An error value
carries the rows already written when the throw happened. -/
def relayAuthed (env : Env) (uid : String) (req : RequestBody) :
    Except (JsError × Store) (RelayResponse × Store) :=
  if jsFalsy env.aimlApiKey then
    .error (⟨"Error", "AI/ML API key not configured"⟩, Store.empty)
  else
    match env.provider with
    | .aborted => .error (⟨"AbortError", abortMessage⟩, Store.empty)
    | .httpError s => .error (⟨"Error", "AI/ML API error: " ++ toString s⟩, Store.empty)
    | .ok p =>
      match providerContent p with
      | none => .error (⟨"Error", "Invalid AI response format"⟩, Store.empty)
      | some none => .error (⟨"Error", "Empty AI response"⟩, Store.empty)
      | some (some s) =>
        if jsTrimEmpty s then .error (⟨"Error", "Empty AI response"⟩, Store.empty)
        else resolveChatAndPersist env uid req s

/-- The whole handler: the unauthenticated early return with a plain-text
body, otherwise the try block with the catch mapping errors through
mapError into a JSON error body. Returns the response and the rows written
during the invocation. -/
def relay (env : Env) (req : RequestBody) : RelayResponse × Store :=
  match env.user with
  | none => (⟨401, .plain "Unauthorized"⟩, Store.empty)
  | some uid =>
    match relayAuthed env uid req with
    | .ok r => r
    | .error (e, st) => (⟨(mapError e).1, .errorJson (mapError e).2 e.message⟩, st)

/-- Whether a response is the success response carrying the reply. -/
def isSuccess (r : RelayResponse) : Bool :=
  match r.body with
  | .successJson _ _ => true
  | _ => false

/-- Whether a response body is the JSON error object. -/
def isErrorJsonBody : ResponseBody → Bool
  | .errorJson _ _ => true
  | _ => false

/-- The (status, user-facing error message) pair of a response: the plain
body text or the error field of the JSON error body. -/
def statusMsg (r : RelayResponse) : Nat × String :=
  (r.status,
    match r.body with
    | .plain s => s
    | .errorJson e _ => e
    | .successJson _ _ => "")

/-- Whether the provider payload fails the validation of lines 127-135:
missing choices, empty choices, missing message, or missing, null, empty
or whitespace-only content. -/
def invalidPayload (p : ProviderPayload) : Bool :=
  match providerContent p with
  | none => true
  | some none => true
  | some (some s) => jsTrimEmpty s

/-! Client chat transcript controller: ChatInterface.handleSubmit in
src/components/AuthPage.tsx, lines 328-399. -/

/-- An in-memory transcript message (the timestamp field carries no
information the controller branches on and is omitted). -/
structure UiMessage where
  role : String
  content : String
  deriving Repr, DecidableEq

/-- The component state handleSubmit reads and writes: the transcript, the
input box text, and the in-flight flag. -/
structure ChatState where
  messages : List UiMessage
  input : String
  isLoading : Bool
  deriving Repr, DecidableEq

/-- The data object of a relay invoke result; response and chatId may be
absent. -/
structure InvokeData where
  response : Option String
  chatId : Option String
  deriving Repr, DecidableEq

/-- Outcome of the race between the relay invoke and the 30 s client
timer: client timeout, an invoke error, or a result whose data may be
absent. -/
inductive CallResult where
  | timeout
  | invokeError (message : String)
  | ok (data : Option InvokeData)
  deriving Repr, DecidableEq

/-- Whether the try block of handleSubmit throws for this call outcome:
timeout and invoke errors are thrown, and absent data or a falsy
data.response raises the Invalid-response error. -/
def callFails : CallResult → Bool
  | .timeout => true
  | .invokeError _ => true
  | .ok none => true
  | .ok (some d) => jsFalsy d.response

/-- Line 329: content = messageContent or the trimmed input text. -/
def submitContent (st : ChatState) (messageContent : Option String) : String :=
  match messageContent with
  | some c => if c == "" then st.input.trim else c
  | none => st.input.trim

/-- handleSubmit: guard on empty content or an in-flight call, optimistic
append of the user turn, clear the input, then either append the assistant
turn on success or slice the last element off on any caught error; the
finally block clears the in-flight flag. -/
def handleSubmit (st : ChatState) (messageContent : Option String)
    (r : CallResult) : ChatState :=
  let content : String := submitContent st messageContent
  if content == "" || st.isLoading then st
  else
    let afterAppend := st.messages ++ [⟨"user", content⟩]
    match r with
    | .ok (some d) =>
      match d.response with
      | some resp =>
        if resp == "" then ⟨afterAppend.dropLast, "", false⟩
        else ⟨afterAppend ++ [⟨"assistant", resp⟩], "", false⟩
      | none => ⟨afterAppend.dropLast, "", false⟩
    | _ => ⟨afterAppend.dropLast, "", false⟩

/-! Conversation list controller: formatDate in
src/components/ResearchSidebar.tsx, lines 148-158. -/

/-- Milliseconds per day, the divisor of line 152. -/
def msPerDay : Nat := 1000 * 60 * 60 * 24

/-- The four shapes a formatted date can take; localized stands for the
locale-dependent absolute date string. -/
inductive DateLabel where
  | today
  | yesterday
  | daysAgo (n : Nat)
  | localized
  deriving Repr, DecidableEq

/-- Math.ceil(diffTime / msPerDay) for an integral millisecond
difference. -/
def ceilDays (diffTime : Nat) : Nat := (diffTime + (msPerDay - 1)) / msPerDay

/-- formatDate as a function of the absolute difference in milliseconds
between now and the timestamp. -/
def formatDate (diffTime : Nat) : DateLabel :=
  let diffDays := ceilDays diffTime
  if diffDays = 1 then .today
  else if diffDays = 2 then .yesterday
  else if diffDays ≤ 7 then .daysAgo diffDays
  else .localized

/-! Concrete environments used by the closed theorems below. -/

/-- A provider payload with one choice carrying non-empty content. -/
def payloadGood : ProviderPayload := ⟨some [⟨some ⟨some "Here is the answer."⟩⟩]⟩

/-- A request with one short user message and neither chatId nor title. -/
def reqBasic : RequestBody := ⟨[⟨"user", "hello"⟩], none, none⟩

/-- An environment where every external call succeeds. -/
def envAllOk : Env := ⟨some "u1", some "key", .ok payloadGood, true, "chat-1", true, true⟩

/-- The all-ok environment with no resolved user. -/
def envUnauthorized : Env := { envAllOk with user := none }

/-- The all-ok environment with the API key missing. -/
def envConfigFail : Env := { envAllOk with aimlApiKey := none }

/-- The all-ok environment with the provider call aborted. -/
def envTimeout : Env := { envAllOk with provider := .aborted }

/-- The all-ok environment with a provider HTTP failure. -/
def envUpstreamFail : Env := { envAllOk with provider := .httpError 503 }

/-- The all-ok environment with a provider payload carrying no choices. -/
def envBadPayload : Env := { envAllOk with provider := .ok ⟨some []⟩ }

/-- The all-ok environment where the user-message insert fails. -/
def envPersistFail : Env := { envAllOk with userMsgInsertOk := false }

/-- The all-ok environment where the assistant-message insert fails. -/
def envAiPersistFail : Env := { envAllOk with aiMsgInsertOk := false }

/-- A request carrying two user messages and neither chatId nor title. -/
def reqTwoMsgs : RequestBody :=
  ⟨[⟨"user", "first question"⟩, ⟨"user", "second question"⟩], none, none⟩

/-! Helper lemmas. -/

lemma append_dots_ne_empty (s : String) : s ++ "..." ≠ "" := by
  intro h
  have hl := congrArg String.length h
  rw [String.length_append] at hl
  have h3 : ("..." : String).length = 3 := rfl
  have h0 : ("" : String).length = 0 := rfl
  omega

lemma jsFalsy_none : jsFalsy none = true := rfl

lemma chatTitle_none_nil : chatTitle none [] = "undefined..." := rfl

lemma mapError_abort : mapError ⟨"AbortError", abortMessage⟩ = (408, "Request timeout") := by
  decide

lemma mapError_invalid_format :
    mapError ⟨"Error", "Invalid AI response format"⟩ = (502, "Invalid AI response") := by
  decide

lemma mapError_empty_resp :
    mapError ⟨"Error", "Empty AI response"⟩ = (502, "Invalid AI response") := by
  decide

lemma mapError_key_missing :
    mapError ⟨"Error", "AI/ML API key not configured"⟩ = (500, "Internal server error") := by
  decide

lemma mapError_save_user :
    mapError ⟨"Error", "Failed to save user message"⟩ = (500, "Internal server error") := by
  decide

lemma mapError_save_ai :
    mapError ⟨"Error", "Failed to save AI response"⟩ = (500, "Internal server error") := by
  decide

lemma mapError_typeerr :
    mapError ⟨"TypeError", "Cannot read properties of undefined"⟩ =
      (500, "Internal server error") := by
  decide

lemma mapError_status (e : JsError) :
    (mapError e).1 = 408 ∨ (mapError e).1 = 500 ∨ (mapError e).1 = 502 := by
  unfold mapError
  split
  · left; rfl
  · split
    · right; right; rfl
    · split
      · right; right; rfl
      · right; left; rfl

lemma persistTurn_ok_shape {env : Env} {a c : String} {msgs : List ChatMessage}
    {st : Store} {r : RelayResponse} {st2 : Store}
    (h : persistTurn env a c msgs st = .ok (r, st2)) :
    env.userMsgInsertOk = true ∧ env.aiMsgInsertOk = true ∧
    r = ⟨200, .successJson a c⟩ := by
  unfold persistTurn at h
  split at h
  · simp at h
  · split at h
    · split at h
      · simp only [Except.ok.injEq, Prod.mk.injEq] at h
        exact ⟨by assumption, by assumption, h.1.symm⟩
      · simp at h
    · simp at h

lemma resolveChatAndPersist_ok_shape {env : Env} {uid : String} {req : RequestBody}
    {a : String} {r : RelayResponse} {st2 : Store}
    (h : resolveChatAndPersist env uid req a = .ok (r, st2)) :
    env.userMsgInsertOk = true ∧ env.aiMsgInsertOk = true ∧
    ∃ cid, r = ⟨200, .successJson a cid⟩ := by
  unfold resolveChatAndPersist at h
  split at h
  · split at h
    · obtain ⟨h1, h2, h3⟩ := persistTurn_ok_shape h
      exact ⟨h1, h2, _, h3⟩
    · simp at h
  · obtain ⟨h1, h2, h3⟩ := persistTurn_ok_shape h
    exact ⟨h1, h2, _, h3⟩

lemma relayAuthed_ok_shape {env : Env} {uid : String} {req : RequestBody}
    {r : RelayResponse} {st2 : Store}
    (h : relayAuthed env uid req = .ok (r, st2)) :
    env.userMsgInsertOk = true ∧ env.aiMsgInsertOk = true ∧
    ∃ a cid, r = ⟨200, .successJson a cid⟩ := by
  unfold relayAuthed at h
  split at h
  · simp at h
  · split at h
    · simp at h
    · simp at h
    · split at h
      · simp at h
      · simp at h
      · split at h
        · simp at h
        · obtain ⟨h1, h2, cid, h3⟩ := resolveChatAndPersist_ok_shape h
          exact ⟨h1, h2, _, cid, h3⟩

/-! Claim theorems. -/

/-- Claim C1: in every relay invocation in which persisting the user
message or the assistant message fails, the relay does not return the
success response carrying the generated reply — the turn is reported
failed even though the model reply already existed. -/
theorem c1_persist_failure_not_success (env : Env) (req : RequestBody)
    (h : env.userMsgInsertOk = false ∨ env.aiMsgInsertOk = false) :
    isSuccess (relay env req).1 = false := by
  unfold relay
  cases hu : env.user with
  | none => simp [isSuccess]
  | some uid =>
    cases hr : relayAuthed env uid req with
    | error e =>
      obtain ⟨e1, st1⟩ := e
      simp [hr, isSuccess]
    | ok r =>
      obtain ⟨resp, st2⟩ := r
      obtain ⟨h1, h2, -⟩ := relayAuthed_ok_shape hr
      rcases h with h | h
      · rw [h1] at h; exact absurd h (by simp)
      · rw [h2] at h; exact absurd h (by simp)

/-- Witness for C1 at the environment whose user-message insert fails. -/
theorem c1_witness :
    (envPersistFail.userMsgInsertOk = false ∨ envPersistFail.aiMsgInsertOk = false) ∧
    isSuccess (relay envPersistFail reqBasic).1 = false :=
  ⟨Or.inl rfl, c1_persist_failure_not_success envPersistFail reqBasic (Or.inl rfl)⟩

/-- Claim C2 counterexample: with no chatId and no title and the two-message
history reqTwoMsgs, the newest user message is the 15-character string
second question, yet the created chat title is the first message content
with an ellipsis marker appended — not the newest message content
unmodified as the claim requires for messages of 50 or fewer characters. -/
theorem c2_counterexample :
    (relay envAllOk reqTwoMsgs).2.chats = [("chat-1", "u1", "first question...")] ∧
    "first question..." ≠ "second question" := by
  exact ⟨rfl, by decide⟩

/-- Claim C2 amended: the created title is the supplied title when it is
non-empty; otherwise the first 50 characters of the FIRST message content
with the ellipsis marker always appended, also when the content has 50 or
fewer characters; and when no message is available the title is the
literal text undefined followed by the marker, not the fixed fallback
string. -/
theorem c2_amended_title (t : String) (msgs : List ChatMessage) (m : ChatMessage) :
    (t ≠ "" → chatTitle (some t) msgs = t) ∧
    (msgs.head? = some m → chatTitle none msgs = sliceTo m.content 50 ++ "...") ∧
    chatTitle none [] = "undefined..." := by
  refine ⟨?_, ?_, rfl⟩
  · intro ht
    simp [chatTitle, jsFalsy, ht]
  · intro hm
    simp only [chatTitle, jsFalsy, hm]
    rw [if_neg (by simp), if_neg (append_dots_ne_empty _)]

/-- Witness for C2 amended at a supplied title, a short first message, and
the empty message list. -/
theorem c2_amended_witness :
    chatTitle (some "My Title") [⟨"user", "hello"⟩] = "My Title" ∧
    chatTitle none [⟨"user", "hello"⟩] = sliceTo "hello" 50 ++ "..." ∧
    chatTitle none [] = "undefined..." :=
  ⟨(c2_amended_title "My Title" [⟨"user", "hello"⟩] ⟨"user", "hello"⟩).1 (by decide),
   (c2_amended_title "My Title" [⟨"user", "hello"⟩] ⟨"user", "hello"⟩).2.1 rfl,
   (c2_amended_title "My Title" [⟨"user", "hello"⟩] ⟨"user", "hello"⟩).2.2⟩

/-- Claim C3 counterexample: a Configuration failure (missing API key) and
a Persistence failure (user-message insert error) return the same
(status, error message) pair (500, Internal server error), so the six
failure classes do not map to pairwise distinct pairs. -/
theorem c3_counterexample :
    statusMsg (relay envConfigFail reqBasic).1 = (500, "Internal server error") ∧
    statusMsg (relay envPersistFail reqBasic).1 = (500, "Internal server error") :=
  ⟨rfl, rfl⟩

/-- Claim C3 amended: Unauthorized, Timeout, UpstreamUnavailable and
UpstreamInvalidResponse return the four pairwise distinct pairs listed
below, while Configuration and Persistence both return
(500, Internal server error) and are distinguished only by the details
field of the JSON body. -/
theorem c3_amended_distinct :
    statusMsg (relay envUnauthorized reqBasic).1 = (401, "Unauthorized") ∧
    statusMsg (relay envTimeout reqBasic).1 = (408, "Request timeout") ∧
    statusMsg (relay envUpstreamFail reqBasic).1 = (502, "AI service unavailable") ∧
    statusMsg (relay envBadPayload reqBasic).1 = (502, "Invalid AI response") ∧
    statusMsg (relay envConfigFail reqBasic).1 = (500, "Internal server error") ∧
    statusMsg (relay envPersistFail reqBasic).1 = (500, "Internal server error") ∧
    (relay envConfigFail reqBasic).1.body =
      .errorJson "Internal server error" "AI/ML API key not configured" ∧
    (relay envPersistFail reqBasic).1.body =
      .errorJson "Internal server error" "Failed to save user message" :=
  ⟨rfl, rfl, rfl, rfl, rfl, rfl, rfl, rfl⟩

/-- Claim C4 counterexample: the 401 Unauthorized response does not carry
the JSON error body — its body is the plain text Unauthorized. -/
theorem c4_counterexample :
    (relay envUnauthorized reqBasic).1.status = 401 ∧
    isErrorJsonBody (relay envUnauthorized reqBasic).1.body = false :=
  ⟨rfl, rfl⟩

/-- Claim C4 amended: every non-success relay response either is the 401
response with the plain-text body Unauthorized, or has a status in
408, 500, 502 and a JSON body of shape error plus details. -/
theorem c4_amended_error_shape (env : Env) (req : RequestBody)
    (h : isSuccess (relay env req).1 = false) :
    ((relay env req).1.status = 401 ∧ (relay env req).1.body = .plain "Unauthorized") ∨
    (((relay env req).1.status = 408 ∨ (relay env req).1.status = 500 ∨
      (relay env req).1.status = 502) ∧
     isErrorJsonBody (relay env req).1.body = true) := by
  rcases hu : env.user with _ | uid
  · left
    simp [relay, hu]
  · rcases hr : relayAuthed env uid req with e | r
    · obtain ⟨e1, st1⟩ := e
      right
      simp only [relay, hu, hr]
      exact ⟨mapError_status e1, rfl⟩
    · obtain ⟨resp, st2⟩ := r
      obtain ⟨-, -, a, cid, hshape⟩ := relayAuthed_ok_shape hr
      simp only [relay, hu, hr] at h
      rw [hshape] at h
      simp [isSuccess] at h

/-- Witness for C4 amended at the aborted-provider environment. -/
theorem c4_amended_witness :
    isSuccess (relay envTimeout reqBasic).1 = false ∧
    (((relay envTimeout reqBasic).1.status = 401 ∧
      (relay envTimeout reqBasic).1.body = .plain "Unauthorized") ∨
     (((relay envTimeout reqBasic).1.status = 408 ∨
       (relay envTimeout reqBasic).1.status = 500 ∨
       (relay envTimeout reqBasic).1.status = 502) ∧
      isErrorJsonBody (relay envTimeout reqBasic).1.body = true)) :=
  ⟨rfl, c4_amended_error_shape envTimeout reqBasic rfl⟩

/-- Claim C5: when the provider call is aborted by the server-side timeout
in an authenticated, configured invocation, the relay returns status 408
with the Request-timeout error body and writes no Chat and no Message
rows. -/
theorem c5_timeout_no_rows (env : Env) (req : RequestBody) (uid : String)
    (h1 : env.user = some uid) (h2 : jsFalsy env.aimlApiKey = false)
    (h3 : env.provider = .aborted) :
    (relay env req).1.status = 408 ∧
    (relay env req).1.body = .errorJson "Request timeout" abortMessage ∧
    (relay env req).2 = Store.empty := by
  simp [relay, h1, relayAuthed, h2, h3, mapError_abort]

/-- Witness for C5 at the aborted-provider environment. -/
theorem c5_witness :
    envTimeout.user = some "u1" ∧ jsFalsy envTimeout.aimlApiKey = false ∧
    envTimeout.provider = .aborted ∧
    ((relay envTimeout reqBasic).1.status = 408 ∧
     (relay envTimeout reqBasic).1.body = .errorJson "Request timeout" abortMessage ∧
     (relay envTimeout reqBasic).2 = Store.empty) :=
  ⟨rfl, rfl, rfl, c5_timeout_no_rows envTimeout reqBasic "u1" rfl rfl rfl⟩

/-- Claim C6: when the provider payload has no completion choice, a missing
message, or missing, empty or whitespace-only content, the relay returns
status 502 with the Invalid-AI-response error message, does not return the
malformed output as a success response, and writes no Chat and no Message
rows. -/
theorem c6_invalid_payload_no_rows (env : Env) (req : RequestBody) (uid : String)
    (p : ProviderPayload)
    (h1 : env.user = some uid) (h2 : jsFalsy env.aimlApiKey = false)
    (h3 : env.provider = .ok p) (h4 : invalidPayload p = true) :
    statusMsg (relay env req).1 = (502, "Invalid AI response") ∧
    isSuccess (relay env req).1 = false ∧
    (relay env req).2 = Store.empty := by
  unfold invalidPayload at h4
  rcases hpc : providerContent p with _ | co
  · simp [relay, h1, relayAuthed, h2, h3, hpc, mapError_invalid_format, statusMsg, isSuccess]
  · rcases co with _ | s
    · simp [relay, h1, relayAuthed, h2, h3, hpc, mapError_empty_resp, statusMsg, isSuccess]
    · rw [hpc] at h4
      simp only at h4
      simp [relay, h1, relayAuthed, h2, h3, hpc, h4, mapError_empty_resp, statusMsg, isSuccess]

/-- Witness for C6 at the payload with an empty choices array. -/
theorem c6_witness :
    envBadPayload.user = some "u1" ∧ jsFalsy envBadPayload.aimlApiKey = false ∧
    envBadPayload.provider = .ok ⟨some []⟩ ∧ invalidPayload ⟨some []⟩ = true ∧
    (statusMsg (relay envBadPayload reqBasic).1 = (502, "Invalid AI response") ∧
     isSuccess (relay envBadPayload reqBasic).1 = false ∧
     (relay envBadPayload reqBasic).2 = Store.empty) :=
  ⟨rfl, rfl, rfl, rfl,
   c6_invalid_payload_no_rows envBadPayload reqBasic "u1" ⟨some []⟩ rfl rfl rfl rfl⟩

/-- Claim C7: the transcript controller either leaves the transcript
exactly as it was before the submit (the guard path and every failure
path, where the optimistic user turn is sliced off again), or, only when
the relay call succeeded with a non-empty reply field, appends the user
turn and the assistant turn together — so an assistant turn never appears
without its preceding user turn. -/
theorem c7_rollback_or_pair (st : ChatState) (mc : Option String) (r : CallResult) :
    (handleSubmit st mc r).messages = st.messages ∨
    (callFails r = false ∧ ∃ c resp,
      (handleSubmit st mc r).messages =
        st.messages ++ [⟨"user", c⟩, ⟨"assistant", resp⟩]) := by
  by_cases hguard : (submitContent st mc == "" || st.isLoading) = true
  · left
    simp [handleSubmit, hguard]
  · rcases r with _ | m | d
    · left
      simp [handleSubmit, hguard]
    · left
      simp [handleSubmit, hguard]
    · rcases d with _ | dd
      · left
        simp [handleSubmit, hguard]
      · rcases hresp : dd.response with _ | s2
        · left
          simp [handleSubmit, hguard, hresp]
        · by_cases hs : (s2 == "") = true
          · left
            simp [handleSubmit, hguard, hresp, hs]
          · right
            refine ⟨?_, submitContent st mc, s2, ?_⟩
            · simp only [callFails, jsFalsy, hresp]
              simpa using hs
            · simp [handleSubmit, hguard, hresp, hs]

/-- Claim C8 counterexample: at age zero milliseconds the day difference
ceiling is 0, which the claim sends to the localized absolute date, but
formatDate returns the 0-days-ago label. -/
theorem c8_counterexample :
    ceilDays 0 = 0 ∧ formatDate 0 = DateLabel.daysAgo 0 ∧
    DateLabel.daysAgo 0 ≠ DateLabel.localized := by
  decide

/-- Claim C8 amended: with d the ceiling of the age in days, formatDate
returns Today when d is 1, Yesterday when d is 2, the d-days-ago label
when d is between 3 and 7, the localized absolute date when d is at least
8, and the 0-days-ago label in the remaining case d equal to 0. -/
theorem c8_amended_format (t : Nat) :
    (ceilDays t = 1 → formatDate t = DateLabel.today) ∧
    (ceilDays t = 2 → formatDate t = DateLabel.yesterday) ∧
    (3 ≤ ceilDays t → ceilDays t ≤ 7 → formatDate t = DateLabel.daysAgo (ceilDays t)) ∧
    (ceilDays t = 0 → formatDate t = DateLabel.daysAgo 0) ∧
    (8 ≤ ceilDays t → formatDate t = DateLabel.localized) := by
  unfold formatDate
  refine ⟨?_, ?_, ?_, ?_, ?_⟩
  · intro h
    simp [h]
  · intro h
    simp [h]
  · intro h3 h7
    have h1 : ceilDays t ≠ 1 := by omega
    have h2 : ceilDays t ≠ 2 := by omega
    simp [h1, h2, h7]
  · intro h
    simp [h]
  · intro h
    have h1 : ceilDays t ≠ 1 := by omega
    have h2 : ceilDays t ≠ 2 := by omega
    have h7 : ¬ ceilDays t ≤ 7 := by omega
    simp [h1, h2, h7]

/-- Witness for C8 amended at the four ages named by the spec examples:
exactly 1, 2, 5 and 10 days. -/
theorem c8_amended_witness :
    formatDate msPerDay = DateLabel.today ∧
    formatDate (2 * msPerDay) = DateLabel.yesterday ∧
    formatDate (5 * msPerDay) = DateLabel.daysAgo 5 ∧
    formatDate (10 * msPerDay) = DateLabel.localized := by
  refine ⟨(c8_amended_format msPerDay).1 (by decide),
          (c8_amended_format (2 * msPerDay)).2.1 (by decide), ?_,
          (c8_amended_format (10 * msPerDay)).2.2.2.2 (by decide)⟩
  have h := (c8_amended_format (5 * msPerDay)).2.2.1 (by decide) (by decide)
  rwa [show ceilDays (5 * msPerDay) = 5 from by decide] at h

/-- Claim C9: when the assistant-message insert fails after the user
message was written in a new chat, the relay returns the 500 error
response and the rows already written remain — the new Chat row and the
user Message row are still in the store, with no compensating delete. -/
theorem c9_no_compensating_deletes (env : Env) (req : RequestBody) (uid : String)
    (p : ProviderPayload) (s : String) (m : ChatMessage)
    (h1 : env.user = some uid) (h2 : jsFalsy env.aimlApiKey = false)
    (h3 : env.provider = .ok p) (h4 : providerContent p = some (some s))
    (h5 : jsTrimEmpty s = false)
    (h6 : req.chatId = none) (h7 : env.chatInsertOk = true)
    (h8 : req.messages.getLast? = some m)
    (h9 : env.userMsgInsertOk = true) (h10 : env.aiMsgInsertOk = false) :
    (relay env req).1 =
      ⟨500, .errorJson "Internal server error" "Failed to save AI response"⟩ ∧
    (relay env req).2 =
      ⟨[(env.newChatId, uid, chatTitle req.title req.messages)],
       [(env.newChatId, "user", m.content)]⟩ := by
  simp [relay, h1, relayAuthed, h2, h3, h4, h5, resolveChatAndPersist, h6, jsFalsy_none, h7,
        persistTurn, h8, h9, h10, mapError_save_ai]

/-- Witness for C9 at the environment whose assistant-message insert
fails. -/
theorem c9_witness :
    (relay envAiPersistFail reqBasic).1 =
      ⟨500, .errorJson "Internal server error" "Failed to save AI response"⟩ ∧
    (relay envAiPersistFail reqBasic).2 =
      ⟨[("chat-1", "u1", chatTitle none [⟨"user", "hello"⟩])],
       [("chat-1", "user", "hello")]⟩ :=
  c9_no_compensating_deletes envAiPersistFail reqBasic "u1" payloadGood
    "Here is the answer." ⟨"user", "hello"⟩ rfl rfl rfl rfl rfl rfl rfl rfl rfl rfl

/-- Claim C10: with an authenticated, configured invocation, a valid
provider reply, no chatId, no title and an empty messages array, the relay
inserts a Chat row titled with the literal text undefined plus the
ellipsis marker, then fails reading the content of the missing last
message and returns status 500 with the generic message; the Chat row
persists with zero Message rows. -/
theorem c10_empty_messages (env : Env) (uid : String) (p : ProviderPayload) (s : String)
    (h1 : env.user = some uid) (h2 : jsFalsy env.aimlApiKey = false)
    (h3 : env.provider = .ok p) (h4 : providerContent p = some (some s))
    (h5 : jsTrimEmpty s = false) (h6 : env.chatInsertOk = true) :
    (relay env ⟨[], none, none⟩).1 =
      ⟨500, .errorJson "Internal server error" "Cannot read properties of undefined"⟩ ∧
    (relay env ⟨[], none, none⟩).2 = ⟨[(env.newChatId, uid, "undefined...")], []⟩ := by
  simp [relay, h1, relayAuthed, h2, h3, h4, h5, resolveChatAndPersist, jsFalsy_none, h6,
        persistTurn, chatTitle_none_nil, mapError_typeerr]

/-- Witness for C10 at the all-ok environment with an empty messages
array. -/
theorem c10_witness :
    (relay envAllOk ⟨[], none, none⟩).1 =
      ⟨500, .errorJson "Internal server error" "Cannot read properties of undefined"⟩ ∧
    (relay envAllOk ⟨[], none, none⟩).2 = ⟨[("chat-1", "u1", "undefined...")], []⟩ :=
  c10_empty_messages envAllOk "u1" payloadGood "Here is the answer."
    rfl rfl rfl rfl rfl rfl

end DataDiscoverer
